import Mathlib

/-!
Verification of the Win99 mission lifecycle-and-variable-scope subsystem
(repository `InnovativeDevSolutions/os`).

The repository's own code consists of preprocessor macro headers:
`main/script_macros.hpp` (path, prep and variable macros), the static
module tables `main/CfgPreInit.hpp` and `main/CfgPostInit.hpp`, and the
per-component headers.  The surrounding dispatch machinery (the engine
that walks the Cfg tables and the engine's `getVariable`/`setVariable`
store) is not part of the repository's sources; where a claim depends on
it, the corresponding definition is modelled from the spec and marked so
in its doc comment.
-/

namespace Win99

/-! ## Path Resolver — `PATHTO_SYS` (script_macros.hpp line 41)

`#define PATHTO_SYS(var1,var2,var3,var4) ##var1\##var2\##var3\##var4.sqf`

The macro concatenates its four identifier arguments with the `\`
separator and appends the `.sqf` extension.  It performs no validation
and has no failure path; to make the spec's error-handling claim (C6)
statable we embed the result in `Except PathError String`, with the
source macro always returning `Except.ok` of the concatenation. -/

/-- Error taxonomy of spec section 7 (the source macro never produces one). -/
inductive PathError where
  | InvalidIdentifier
  | DuplicateModule
  | LoadFailure
deriving DecidableEq, Repr

/-- The path separator character used by `PATHTO_SYS`. -/
def pathSep : String := "\\"

/-- Embedding of `PATHTO_SYS(var1,var2,var3,var4)`: the concatenation
`var1\var2\var3\var4.sqf`. -/
def PATHTO_SYS (var1 var2 var3 var4 : String) : String :=
  var1 ++ pathSep ++ var2 ++ pathSep ++ var3 ++ pathSep ++ var4 ++ ".sqf"

/-- The source resolver as a fallible computation: `PATHTO_SYS` has no
error branch, so the result is always `Except.ok` of the concatenation. -/
def sourceResolve (var1 var2 var3 var4 : String) : Except PathError String :=
  Except.ok (PATHTO_SYS var1 var2 var3 var4)

/-- The resolver as used by `PREP`/`PREPMAIN` (script_macros.hpp lines
42-43): `PATHTO_SYS(Win99,COMPONENT,functions,DOUBLES(fnc,var1))`, i.e.
the third identifier is the fixed literal `functions`. -/
def resolve (moduleNs component functionName : String) : String :=
  PATHTO_SYS moduleNs component "functions" functionName

/-- Tests whether an identifier contains the path separator character. -/
def containsSep (s : String) : Bool :=
  s.data.contains '\\'

/-! ## Guarded array selection — `ARR_SELECT` (script_macros.hpp line 33)

`#define ARR_SELECT(ARRAY,INDEX,DEFAULT)
   (if (count ARRAY > INDEX) then {ARRAY select INDEX} else {DEFAULT})` -/

/-- Embedding of `ARR_SELECT`: arrays become lists, `count` becomes
`List.length`, `select` becomes positional access (performed only under
the bound check, exactly as in the macro). -/
def ARR_SELECT {α : Type} (a : List α) (i : Nat) (d : α) : α :=
  if h : a.length > i then a.get ⟨i, h⟩ else d

end Win99

namespace Win99

/-! ## Variable handling macros (script_macros.hpp lines 16-18)

`#define GETVAR_SYS(var1,var2) getVariable [ARR_2(QUOTE(var1),var2)]`
`#define SETVAR_SYS(var1,var2) setVariable [ARR_2(QUOTE(var1),var2)]`
`#define SETPVAR_SYS(var1,var2) setVariable [ARR_3(QUOTE(var1),var2,true)]`

The macros build the argument lists handed to the engine's
`getVariable`/`setVariable`.  We embed the built command: the key, the
payload, and — for `setVariable` — the optional third (propagation)
flag, present exactly when the `ARR_3` form is used. -/

/-- A variable command as assembled by the macros: a read carries a key
and a default, a write carries a key, a value and an optional
propagation flag. -/
inductive VarCommand (α : Type) where
  | getVar (key : String) (dflt : α)
  | setVar (key : String) (value : α) (flag : Option Bool)
deriving DecidableEq, Repr

/-- Embedding of `GETVAR_SYS(var1,var2)`: a read of `key` with default
`dflt`. -/
def GETVAR_SYS {α : Type} (key : String) (dflt : α) : VarCommand α :=
  VarCommand.getVar key dflt

/-- Embedding of `SETVAR_SYS(var1,var2)`: a two-element write — no
propagation flag. -/
def SETVAR_SYS {α : Type} (key : String) (value : α) : VarCommand α :=
  VarCommand.setVar key value none

/-- Embedding of `SETPVAR_SYS(var1,var2)`: a three-element write whose
third element is the literal `true` propagation flag. -/
def SETPVAR_SYS {α : Type} (key : String) (value : α) : VarCommand α :=
  VarCommand.setVar key value (some true)

/-- The propagation flag carried by a command (`none` for reads and for
two-element writes). -/
def VarCommand.propFlag {α : Type} : VarCommand α → Option Bool
  | VarCommand.getVar _ _ => none
  | VarCommand.setVar _ _ f => f

/-! ## Variable Scope Store

Modelled from the spec: the engine namespaces behind
`getVariable`/`setVariable` are not part of the repository's sources.
Spec section 4.4: a scope holds key-to-value bindings; `get` on a missing
binding returns the caller-supplied default; `set` overwrites the binding
for the exact (scope, key) pair. -/

/-- A scope of the Variable Scope Store (spec section 3): object-local,
mission-global, or the transient parsing context. -/
inductive Scope where
  | object (ownerId : Nat)
  | missionGlobal
  | parsingContext
deriving DecidableEq, Repr

/-- Modelled from the spec: a single process's Variable Scope Store —
each (scope, key) pair is either unbound or bound to a value. -/
def Store (α : Type) : Type := Scope → String → Option α

/-- Modelled from the spec: the store at process start, before any
write — every binding is missing. -/
def emptyStore {α : Type} : Store α := fun _ _ => none

/-- Modelled from the spec: `set(scope, key, v, ...)` overwrites the
binding of the exact (scope, key) pair and nothing else. -/
def setBinding {α : Type} (st : Store α) (sc : Scope) (k : String) (v : α) :
    Store α :=
  fun sc2 k2 => if sc2 = sc ∧ k2 = k then some v else st sc2 k2

/-- Modelled from the spec: `get(scope, key, default)` returns the bound
value, or the caller-supplied default when the binding is missing
(there is no key-not-found error). -/
def getBinding {α : Type} (st : Store α) (sc : Scope) (k : String) (d : α) : α :=
  (st sc k).getD d

/-- Applies a sequence of (scope, key, value) writes, oldest first, to
the empty store of a fresh process. -/
def applySets {α : Type} (ops : List (Scope × String × α)) : Store α :=
  ops.foldl (fun st op => setBinding st op.1 op.2.1 op.2.2) emptyStore

/-- Modelled from the spec: the per-process stores of all participating
processes, indexed by process id. -/
def MultiStore (α : Type) : Type := Nat → Store α

/-- A replication message handed to the transport: the (scope, key,
value) of a persistent write (spec section 6). -/
structure ReplMsg (α : Type) where
  scope : Scope
  key : String
  value : α
deriving DecidableEq, Repr

/-- Modelled from the spec: `set(scope, key, v, persistent)` executed on
process `p`: it updates `p`'s local store, and hands the transport a
replication message exactly when `persistent` is true (non-persistent
writes touch only the writer's store and emit nothing). -/
def setOn {α : Type} (ms : MultiStore α) (p : Nat) (sc : Scope) (k : String)
    (v : α) (persistent : Bool) : MultiStore α × List (ReplMsg α) :=
  (fun q => if q = p then setBinding (ms q) sc k v else ms q,
   if persistent then [⟨sc, k, v⟩] else [])

end Win99

namespace Win99

/-! ## Module Registry — CfgPreInit.hpp and CfgPostInit.hpp

The static tables.  `CfgPreInit.hpp` declares, in order, the classes
`GVARMAIN(Main)`, `GVARMAIN(DB)`, `GVARMAIN(Calendar)`,
`GVARMAIN(Messenger)`, `GVARMAIN(Notepad)`, `GVARMAIN(SNet)`, each with
an `init = PATH_PRE(...)` entry.  `CfgPostInit.hpp` declares the same
six classes in the same order, each with `init = PATH_POST(...)`,
`clientInit = PATH_POST_CLIENT(...)` and
`serverInit = PATH_POST_SERVER(...)`. -/

/-- The module names, in the declaration order of the static tables. -/
inductive ModName where
  | Main
  | DB
  | Calendar
  | Messenger
  | Notepad
  | SNet
deriving DecidableEq, Repr

/-- An execution role (spec section 3): the role-agnostic `Main` pass,
the authoritative `Server`, or a connected `Client`. -/
inductive Role where
  | Main
  | Server
  | Client
deriving DecidableEq, Repr, Fintype

/-- The two lifecycle phases. -/
inductive Phase where
  | PreInit
  | PostInit
deriving DecidableEq, Repr, Fintype

/-- A module descriptor (spec section 3): the module's name, whether it
declares a pre-init entry, and the set of post-init roles it declares. -/
structure ModuleDescriptor where
  name : ModName
  declaresPreInit : Bool
  postInitRoles : List Role
deriving DecidableEq, Repr

/-- The static registry read off the Cfg tables: every module declares a
pre-init entry (CfgPreInit.hpp) and all three post-init roles — `init`
(Main), `clientInit` (Client), `serverInit` (Server) — in CfgPostInit.hpp;
declaration order Main, DB, Calendar, Messenger, Notepad, SNet. -/
def registry : List ModuleDescriptor :=
  [⟨ModName.Main, true, [Role.Main, Role.Client, Role.Server]⟩,
   ⟨ModName.DB, true, [Role.Main, Role.Client, Role.Server]⟩,
   ⟨ModName.Calendar, true, [Role.Main, Role.Client, Role.Server]⟩,
   ⟨ModName.Messenger, true, [Role.Main, Role.Client, Role.Server]⟩,
   ⟨ModName.Notepad, true, [Role.Main, Role.Client, Role.Server]⟩,
   ⟨ModName.SNet, true, [Role.Main, Role.Client, Role.Server]⟩]

/-- Modelled from the spec: `listFor(phase, role)` (spec section 4.2)
returns the modules requesting that phase/role combination in registry
order — for pre-init, every module with `declaresPreInit` (the phase is
role-independent); for post-init, every module declaring that role. -/
def listFor (phase : Phase) (role : Role) : List ModuleDescriptor :=
  match phase with
  | Phase.PreInit => registry.filter (fun d => d.declaresPreInit)
  | Phase.PostInit => registry.filter (fun d => d.postInitRoles.contains role)

/-! ## Lifecycle Orchestrator

Modelled from the spec: the dispatcher that walks the Cfg tables is the
hosting framework, not repository source.  Spec section 4.3: the
pre-init phase runs on every process regardless of role and completes
before post-init; post-init then runs for each role the process holds,
Main first; within a phase modules run synchronously in registry
order. -/

/-- The kind of a participating process (spec section 4.3 step 1):
a server-authority process holds {Server, Main}, a connected client
holds {Client, Main}, a non-networked single process holds Main only. -/
inductive ProcKind where
  | server
  | client
  | single
deriving DecidableEq, Repr, Fintype

/-- The role set a process kind holds, in the dispatch order of spec
section 4.3 step 3 (Main first, then Server, then Client). -/
def heldRoles : ProcKind → List Role
  | ProcKind.server => [Role.Main, Role.Server]
  | ProcKind.client => [Role.Main, Role.Client]
  | ProcKind.single => [Role.Main]

/-- An invocation event observed on one process: a module's pre-init
function running, or a module's role-specific post-init function
running. -/
inductive Event where
  | pre (m : ModName)
  | post (r : Role) (m : ModName)
deriving DecidableEq, Repr

/-- Whether an event is a post-init invocation. -/
def Event.isPost : Event → Bool
  | Event.pre _ => false
  | Event.post _ _ => true

/-- Modelled from the spec: the synchronous invocation trace of one
process (spec section 4.3 steps 2-3) — all pre-init functions in
registry order, then, for each held role in order, that role's post-init
functions in registry order. -/
def runProcess (pk : ProcKind) : List Event :=
  (listFor Phase.PreInit Role.Main).map (fun d => Event.pre d.name)
    ++ (heldRoles pk).flatMap
        (fun r => (listFor Phase.PostInit r).map (fun d => Event.post r d.name))

/-- Element `a` strictly precedes element `b` in list `l`: both occur
and the first occurrence of `a` comes earlier.  On a synchronous
single-threaded invocation trace this is exactly "a completes before b
begins"; on the registry it is declaration order. -/
def precedes {β : Type} [DecidableEq β] (l : List β) (a b : β) : Prop :=
  a ∈ l ∧ b ∈ l ∧ l.indexOf a < l.indexOf b

instance {β : Type} [DecidableEq β] (l : List β) (a b : β) :
    Decidable (precedes l a b) := by
  unfold precedes
  infer_instance

/-- Whether a descriptor requests a given phase/role combination:
pre-init is role-independent, post-init requires the role declared. -/
def declares (d : ModuleDescriptor) : Phase → Role → Bool
  | Phase.PreInit, _ => d.declaresPreInit
  | Phase.PostInit, r => d.postInitRoles.contains r

/-! ## Failure semantics of a phase

Modelled from the spec: the repository's `PREP`/`PATH_PRE`/`PATH_POST`
lines only name the compile pipeline; the surrounding failure handling
(spec section 4.3: record the failure, mark the module `Degraded`,
continue with the remaining modules, never abort the phase) is the
hosting framework's. -/

/-- A process-level fault (never produced by the phase runner: load
failures are contained per module). -/
inductive ProcessFault where
  | fault
deriving DecidableEq, Repr

/-- The outcome of running one phase: the modules whose function was
loaded and invoked, in order, and the modules marked `Degraded` because
their load failed, in order. -/
structure PhaseOutcome where
  ran : List ModName
  degraded : List ModName
deriving DecidableEq, Repr

/-- Modelled from the spec: walks the phase's module list in registry
order; a module whose load succeeds (per the oracle `loadOk`) is
invoked, a module whose load fails is recorded as `Degraded`, and in
either case the walk continues with the next module. -/
def runPhaseAux (loadOk : ModName → Bool) : List ModuleDescriptor → PhaseOutcome
  | [] => ⟨[], []⟩
  | d :: rest =>
    let o := runPhaseAux loadOk rest
    if loadOk d.name then ⟨d.name :: o.ran, o.degraded⟩
    else ⟨o.ran, d.name :: o.degraded⟩

/-- Modelled from the spec: runs one phase/role of the Orchestrator under
the load oracle `loadOk`.  The result type records that no process-level
fault escapes: the runner always returns an outcome. -/
def runPhase (loadOk : ModName → Bool) (phase : Phase) (role : Role) :
    Except ProcessFault PhaseOutcome :=
  Except.ok (runPhaseAux loadOk (listFor phase role))

/-! ## Function preparation — `PREP`/`PREPMAIN` (script_macros.hpp 42-43)

The repository first `#undef`s `PREP` and `PREPMAIN` (lines 38-39) and
redefines them as

`#define PREP(var1) TRIPLES(ADDON,fnc,var1) = compile
 preProcessFileLineNumbers 'PATHTO_SYS(Win99,COMPONENT,functions,DOUBLES(fnc,var1))'`

— an unconditional assignment: executing the statement invokes the
function-source provider (`preProcessFileLineNumbers` plus `compile`)
and stores the handle in the global function variable.  The redefinition
contains no reference to `DISABLE_COMPILE_CACHE` (which appears in the
component headers only as a commented-out line), so the flag cannot
influence it. -/

/-- An opaque compiled handle: the provider's result for a path,
distinguished by the path it was compiled from and a compile counter. -/
structure CompiledHandle where
  sourcePath : String
  compileId : Nat
deriving DecidableEq, Repr

/-- The per-process preparation state: the global function variables
(one per path) and, as the observable side-effect ledger, how many times
the function-source provider was invoked for each path. -/
structure PrepState where
  funcs : String → Option CompiledHandle
  providerCalls : String → Nat

/-- The preparation state at process start: no function variables set,
no provider invocations. -/
def initPrepState : PrepState :=
  ⟨fun _ => none, fun _ => 0⟩

/-- Embedding of executing one `PREP`/`PREPMAIN` statement for `path`:
the provider is invoked (its call count for `path` increments) and the
freshly compiled handle is assigned to the function variable.  The
`cacheDisabled` argument mirrors `DISABLE_COMPILE_CACHE`; faithful to
the redefined macro, the body never consults it. -/
def prepExec (cacheDisabled : Bool) (st : PrepState) (path : String) : PrepState :=
  ⟨fun p => if p = path
      then some ⟨path, st.providerCalls path + 1⟩
      else st.funcs p,
   fun p => if p = path then st.providerCalls path + 1 else st.providerCalls p⟩

end Win99


namespace Win99

/-! ## Helper lemmas -/

/-- A fold of writes none of which targets the exact (scope, key) pair
leaves that pair unbound. -/
theorem setFold_preserves_miss {α : Type} (sc : Scope) (k : String) :
    ∀ (ops : List (Scope × String × α)) (st : Store α),
      (∀ op ∈ ops, ¬(op.1 = sc ∧ op.2.1 = k)) → st sc k = none →
      (ops.foldl (fun st op => setBinding st op.1 op.2.1 op.2.2) st) sc k = none := by
  intro ops
  induction ops with
  | nil => intro st _ h0; exact h0
  | cons op rest ih =>
    intro st hmiss h0
    have hop : ¬(op.1 = sc ∧ op.2.1 = k) := hmiss op (List.mem_cons_self op rest)
    have hrest : ∀ o ∈ rest, ¬(o.1 = sc ∧ o.2.1 = k) :=
      fun o ho => hmiss o (List.mem_cons_of_mem op ho)
    have hstep : setBinding st op.1 op.2.1 op.2.2 sc k = none := by
      unfold setBinding
      rw [if_neg (fun h => hop ⟨h.1.symm, h.2.symm⟩)]
      exact h0
    exact ih (setBinding st op.1 op.2.1 op.2.2) hrest hstep

/-- In a phase walk, a module whose load succeeds ends up invoked and a
module whose load fails ends up recorded as degraded, irrespective of
the fate of the other modules. -/
theorem runPhaseAux_covers {loadOk : ModName → Bool} :
    ∀ (mods : List ModuleDescriptor), ∀ d ∈ mods,
      (loadOk d.name = true → d.name ∈ (runPhaseAux loadOk mods).ran)
      ∧ (loadOk d.name = false → d.name ∈ (runPhaseAux loadOk mods).degraded) := by
  intro mods
  induction mods with
  | nil => intro d hd; cases hd
  | cons a tl ih =>
    intro d hd
    rcases List.mem_cons.mp hd with heq | hmem
    · subst heq
      constructor
      · intro hl; simp [runPhaseAux, hl]
      · intro hl; simp [runPhaseAux, hl]
    · obtain ⟨h1, h2⟩ := ih d hmem
      constructor
      · intro hl
        by_cases ha : loadOk a.name = true
        · simp only [runPhaseAux, ha, if_true]
          exact List.mem_cons_of_mem _ (h1 hl)
        · simp only [runPhaseAux, ha, if_false]
          exact h1 hl
      · intro hl
        by_cases ha : loadOk a.name = true
        · simp only [runPhaseAux, ha, if_true]
          exact h2 hl
        · simp only [runPhaseAux, ha, if_false]
          exact List.mem_cons_of_mem _ (h2 hl)

end Win99

namespace Win99

/-! ## Claim theorems -/

/-- C1: on every process, the pre-init phase fully completes before any
post-init function runs — for every module descriptor with
`declaresPreInit = true`, its pre-init invocation strictly precedes
every post-init invocation of every module in the process's trace,
regardless of the process's role set. -/
theorem preInit_completes_before_postInit :
    ∀ pk : ProcKind, ∀ d ∈ registry, d.declaresPreInit = true →
      ∀ e ∈ runProcess pk, e.isPost = true →
      precedes (runProcess pk) (Event.pre d.name) e := by
  decide

/-- Witness for C1: on a client process, the DB module's pre-init
precedes the Main module's Client-role post-init. -/
theorem preInit_completes_before_postInit_witness :
    precedes (runProcess ProcKind.client) (Event.pre ModName.DB)
      (Event.post Role.Client ModName.Main) :=
  preInit_completes_before_postInit ProcKind.client
    ⟨ModName.DB, true, [Role.Main, Role.Client, Role.Server]⟩ (by decide) (by decide)
    (Event.post Role.Client ModName.Main) (by decide) (by decide)

/-- C2: `listFor(phase, role)` returns exactly the modules declaring
that phase/role combination, in the fixed declaration order Main, DB,
Calendar, Messenger, Notepad, SNet; and within a phase on one process,
modules are invoked in that order — for A preceding B in the registry
and both declaring the same phase/role, A's invocation precedes B's in
the trace. -/
theorem listFor_order_and_phase_dispatch :
    (∀ phase role, (listFor phase role).map ModuleDescriptor.name =
      [ModName.Main, ModName.DB, ModName.Calendar, ModName.Messenger,
       ModName.Notepad, ModName.SNet])
    ∧ (∀ phase role, ∀ d ∈ listFor phase role,
        d ∈ registry ∧ declares d phase role = true)
    ∧ (∀ phase role, ∀ d ∈ registry, declares d phase role = true →
        d ∈ listFor phase role)
    ∧ (∀ pk : ProcKind, ∀ A ∈ registry, ∀ B ∈ registry, precedes registry A B →
        (A.declaresPreInit = true → B.declaresPreInit = true →
          precedes (runProcess pk) (Event.pre A.name) (Event.pre B.name))
        ∧ (∀ r ∈ heldRoles pk, A.postInitRoles.contains r = true →
            B.postInitRoles.contains r = true →
            precedes (runProcess pk) (Event.post r A.name) (Event.post r B.name))) := by
  decide

/-- Witness for C2: on a client process, the Main module's Client-role
post-init precedes the Calendar module's. -/
theorem listFor_order_and_phase_dispatch_witness :
    precedes (runProcess ProcKind.client) (Event.post Role.Client ModName.Main)
      (Event.post Role.Client ModName.Calendar) :=
  (listFor_order_and_phase_dispatch.2.2.2 ProcKind.client
      ⟨ModName.Main, true, [Role.Main, Role.Client, Role.Server]⟩ (by decide)
      ⟨ModName.Calendar, true, [Role.Main, Role.Client, Role.Server]⟩ (by decide)
      (by decide)).2 Role.Client (by decide) (by decide) (by decide)

end Win99

namespace Win99

/-- C3: `get(scope, key, default)` returns the default when no prior
`set` targeted that exact (scope, key) pair — there is no key-not-found
error — and after `set(scope, key, v)` a subsequent `get(scope, key,
default)` on the same process returns `v`. -/
theorem varStore_default_and_set {α : Type} (ops : List (Scope × String × α))
    (sc : Scope) (k : String) (d : α)
    (hmiss : ∀ op ∈ ops, ¬(op.1 = sc ∧ op.2.1 = k)) :
    getBinding (applySets ops) sc k d = d
    ∧ ∀ (st : Store α) (v : α), getBinding (setBinding st sc k v) sc k d = v := by
  constructor
  · unfold getBinding applySets
    rw [setFold_preserves_miss sc k ops emptyStore hmiss rfl]
    rfl
  · intro st v
    simp [getBinding, setBinding]

/-- Witness for C3: after a write targeting another key, reading the
key "k" still yields the default 7; a direct write of 5 to "k" is read
back as 5. -/
theorem varStore_default_and_set_witness :
    getBinding (applySets [(Scope.missionGlobal, "other", (42 : Nat))])
      Scope.missionGlobal "k" 7 = 7
    ∧ getBinding (setBinding (emptyStore : Store Nat) Scope.missionGlobal "k" 5)
        Scope.missionGlobal "k" 7 = 5 := by
  have h := varStore_default_and_set [(Scope.missionGlobal, "other", (42 : Nat))]
    Scope.missionGlobal "k" 7 (by decide)
  exact ⟨h.1, h.2 emptyStore 5⟩

/-- C4: a persistent write, and only a persistent write, carries the
propagation flag `true` (`SETPVAR_SYS` emits a three-element write with
flag `true`, `SETVAR_SYS` a two-element write with no flag), only a
persistent write hands the transport a replication message, and a
non-persistent write leaves every other process's store unchanged. -/
theorem persistent_flag_and_local_frame {α : Type} (k : String) (v : α)
    (ms : MultiStore α) (p q : Nat) (sc : Scope) (hq : q ≠ p) :
    (SETPVAR_SYS k v).propFlag = some true
    ∧ (SETVAR_SYS k v).propFlag = none
    ∧ (setOn ms p sc k v true).2 = [⟨sc, k, v⟩]
    ∧ (setOn ms p sc k v false).2 = []
    ∧ (setOn ms p sc k v false).1 q = ms q := by
  refine ⟨rfl, rfl, rfl, rfl, ?_⟩
  simp [setOn, hq]

/-- Witness for C4: with two processes 0 and 1, a non-persistent write
of 5 on process 0 emits no replication message and leaves process 1's
store untouched; the persistent form emits the message and carries the
flag. -/
theorem persistent_flag_and_local_frame_witness :
    (SETPVAR_SYS "k" (5 : Nat)).propFlag = some true
    ∧ (SETVAR_SYS "k" (5 : Nat)).propFlag = none
    ∧ (setOn (fun _ => emptyStore) 0 Scope.missionGlobal "k" (5 : Nat) true).2 =
        [⟨Scope.missionGlobal, "k", 5⟩]
    ∧ (setOn (fun _ => emptyStore) 0 Scope.missionGlobal "k" (5 : Nat) false).2 = []
    ∧ (setOn (fun _ => emptyStore) 0 Scope.missionGlobal "k" (5 : Nat) false).1 1 =
        (fun _ => emptyStore : MultiStore Nat) 1 :=
  persistent_flag_and_local_frame "k" 5 (fun _ => emptyStore) 0 1
    Scope.missionGlobal (by decide)

/-- C5: the Path Resolver is a pure deterministic function — `resolve`
concatenates the module, component and function identifiers with the
fixed `\` separator and the fixed `.sqf` suffix, and two calls with
identical arguments return equal strings. -/
theorem pathResolver_concat_deterministic (m c f : String) :
    resolve m c f =
      m ++ pathSep ++ c ++ pathSep ++ "functions" ++ pathSep ++ f ++ ".sqf"
    ∧ ∀ m2 c2 f2 : String, m = m2 → c = c2 → f = f2 →
        resolve m c f = resolve m2 c2 f2 := by
  refine ⟨rfl, ?_⟩
  intro m2 c2 f2 h1 h2 h3
  rw [h1, h2, h3]

/-- Witness for C5: the calendar module's init function resolves to the
expected concatenation, and the resolution agrees with itself on
identical arguments. -/
theorem pathResolver_concat_deterministic_witness :
    resolve "Win99" "calendar" "fnc_init" =
      "Win99" ++ pathSep ++ "calendar" ++ pathSep ++ "functions" ++ pathSep ++
        "fnc_init" ++ ".sqf"
    ∧ resolve "Win99" "calendar" "fnc_init" = resolve "Win99" "calendar" "fnc_init" :=
  ⟨(pathResolver_concat_deterministic "Win99" "calendar" "fnc_init").1,
   (pathResolver_concat_deterministic "Win99" "calendar" "fnc_init").2
     "Win99" "calendar" "fnc_init" rfl rfl rfl⟩

end Win99

namespace Win99

/-- C6, counterexample: the claim says a component containing the path
separator makes resolution fail with `InvalidIdentifier`; on the source
macro the call with component `a\b` (which contains the separator)
returns the concatenated path string and no error. -/
theorem resolver_validation_counterexample :
    containsSep "a\\b" = true
    ∧ sourceResolve "Win99" "a\\b" "functions" "fnc_x" =
        Except.ok "Win99\\a\\b\\functions\\fnc_x.sqf"
    ∧ sourceResolve "Win99" "a\\b" "functions" "fnc_x" ≠
        Except.error PathError.InvalidIdentifier := by
  refine ⟨by decide, rfl, ?_⟩
  simp [sourceResolve]

/-- C6, amended: `PATHTO_SYS` performs no validation at all — even when
a component contains the path separator, resolution succeeds and
returns the plain concatenation (never an `InvalidIdentifier` error). -/
theorem resolver_never_fails (m c f g : String) (h : containsSep c = true) :
    sourceResolve m c f g =
      Except.ok (m ++ pathSep ++ c ++ pathSep ++ f ++ pathSep ++ g ++ ".sqf") :=
  rfl

/-- Witness for the amended C6: the separator-containing component
`a\b` still resolves to the concatenation. -/
theorem resolver_never_fails_witness :
    containsSep "a\\b" = true
    ∧ sourceResolve "Win99" "a\\b" "functions" "fnc_x" =
        Except.ok ("Win99" ++ pathSep ++ "a\\b" ++ pathSep ++ "functions" ++
          pathSep ++ "fnc_x" ++ ".sqf") :=
  ⟨by decide, resolver_never_fails "Win99" "a\\b" "functions" "fnc_x" (by decide)⟩

/-- C7: a module whose function load fails is marked `Degraded` while
every other module of the same phase still runs, and the phase runner
never surfaces a process-level fault (the result is always `ok`). -/
theorem loadFailure_isolated (loadOk : ModName → Bool) (phase : Phase) (role : Role) :
    runPhase loadOk phase role = Except.ok (runPhaseAux loadOk (listFor phase role))
    ∧ ∀ d ∈ listFor phase role,
        (loadOk d.name = true →
          d.name ∈ (runPhaseAux loadOk (listFor phase role)).ran)
        ∧ (loadOk d.name = false →
          d.name ∈ (runPhaseAux loadOk (listFor phase role)).degraded) :=
  ⟨rfl, runPhaseAux_covers (listFor phase role)⟩

/-- Witness for C7: in a pre-init phase where only the DB module's load
fails, the Main module still runs and the DB module is recorded as
degraded. -/
theorem loadFailure_isolated_witness :
    ModName.Main ∈
      (runPhaseAux (fun m => m != ModName.DB) (listFor Phase.PreInit Role.Main)).ran
    ∧ ModName.DB ∈
      (runPhaseAux (fun m => m != ModName.DB) (listFor Phase.PreInit Role.Main)).degraded := by
  have h := loadFailure_isolated (fun m => m != ModName.DB) Phase.PreInit Role.Main
  exact ⟨(h.2 ⟨ModName.Main, true, [Role.Main, Role.Client, Role.Server]⟩
            (by decide)).1 (by decide),
         (h.2 ⟨ModName.DB, true, [Role.Main, Role.Client, Role.Server]⟩
            (by decide)).2 (by decide)⟩

end Win99

namespace Win99

/-- C8, counterexample: the claim says that with the compile cache
enabled (the default, `cacheDisabled = false`) the function-source
provider is invoked at most once per path per process; on the
repository's redefined `PREP`, two consecutive executions for the path
"p" with the cache enabled invoke the provider twice. -/
theorem compileCache_counterexample :
    (prepExec false (prepExec false initPrepState "p") "p").providerCalls "p" = 2
    ∧ ¬ (prepExec false (prepExec false initPrepState "p") "p").providerCalls "p" ≤ 1 := by
  exact ⟨rfl, by decide⟩

/-- C8, amended: the repository's redefined `PREP`/`PREPMAIN` never
consult `DISABLE_COMPILE_CACHE` (the flag appears only commented out in
the component headers): preparation behaves identically for every flag
value, each execution invokes the function-source provider exactly once
more for its path, two consecutive executions for the same path invoke
it twice regardless of the flag, and the freshly compiled handle is
stored in the global function variable. -/
theorem prep_ignores_cache_flag :
    (∀ (b1 b2 : Bool) (st : PrepState) (path : String),
      prepExec b1 st path = prepExec b2 st path)
    ∧ (∀ (b : Bool) (st : PrepState) (path : String),
      (prepExec b st path).providerCalls path = st.providerCalls path + 1)
    ∧ (∀ (b : Bool) (path : String),
      (prepExec b (prepExec b initPrepState path) path).providerCalls path = 2)
    ∧ (∀ (b : Bool) (st : PrepState) (path : String),
      (prepExec b st path).funcs path = some ⟨path, st.providerCalls path + 1⟩) := by
  refine ⟨fun b1 b2 st path => rfl, fun b st path => by simp [prepExec],
    fun b path => by simp [prepExec, initPrepState], fun b st path => by simp [prepExec]⟩

/-- C9: for every module, on any single process the module's Main-role
post-init runs before that same module's Server-role or Client-role
post-init. -/
theorem mainRole_post_first :
    ∀ pk : ProcKind, ∀ d ∈ registry, ∀ r ∈ heldRoles pk, r ≠ Role.Main →
      d.postInitRoles.contains Role.Main = true →
      d.postInitRoles.contains r = true →
      precedes (runProcess pk) (Event.post Role.Main d.name) (Event.post r d.name) := by
  decide

/-- Witness for C9: on a server process, the Calendar module's
Main-role post-init precedes its Server-role post-init. -/
theorem mainRole_post_first_witness :
    precedes (runProcess ProcKind.server) (Event.post Role.Main ModName.Calendar)
      (Event.post Role.Server ModName.Calendar) :=
  mainRole_post_first ProcKind.server
    ⟨ModName.Calendar, true, [Role.Main, Role.Client, Role.Server]⟩ (by decide)
    Role.Server (by decide) (by decide) (by decide) (by decide)

/-- C10: the guarded array selection `ARR_SELECT` is total — it returns
the element at position `i` when `i < count a` and the default
otherwise, never selecting out of bounds. -/
theorem arrSelect_total_guarded {α : Type} (a : List α) (i : Nat) (d : α) :
    (∀ h : i < a.length, ARR_SELECT a i d = a.get ⟨i, h⟩)
    ∧ (a.length ≤ i → ARR_SELECT a i d = d) := by
  constructor
  · intro h
    unfold ARR_SELECT
    rw [dif_pos h]
  · intro h
    unfold ARR_SELECT
    rw [dif_neg (by omega)]

/-- Witness for C10: an in-bounds index returns the element, an
out-of-bounds index returns the default. -/
theorem arrSelect_total_guarded_witness :
    ARR_SELECT [5, 7] 1 0 = 7 ∧ ARR_SELECT [5, 7] 9 0 = 0 := by
  constructor
  · have h := (arrSelect_total_guarded [5, 7] 1 0).1 (by decide)
    simpa using h
  · exact (arrSelect_total_guarded [5, 7] 9 0).2 (by decide)

end Win99
